import Mathlib

/-!
Verification development for the GeekMagic smart-display integration.

Shallow embedding of the rendering-pipeline and coordinator logic:
Python floats are modelled as rationals, Python strings as lists of
characters or Lean strings, Python dicts as association lists, and the
external collaborators (device HTTP API, templating engine, PIL) as
explicit oracles supplied to the embedded functions.
-/

namespace GeekMagic

/-! ## widgets/helpers.py -/

/-- Python slice `l[:k]` for an integer bound `k` (negative bounds count
from the end, clamped at zero). -/
def pySliceTo (l : List Char) (k : Int) : List Char :=
  if 0 ≤ k then l.take k.toNat else l.take ((l.length : Int) + k).toNat

/-- Embedding of `truncate_text` (widgets/helpers.py): return the text
unchanged when it fits, otherwise cut it and append the suffix. -/
def truncate_text (text : List Char) (max_chars : Int) (sfx : List Char) : List Char :=
  if (text.length : Int) ≤ max_chars then text
  else pySliceTo text (max_chars - sfx.length) ++ sfx

/-- Embedding of `calculate_percent` (widgets/helpers.py). -/
def calculate_percent (value min_val max_val : ℚ) : ℚ :=
  let value_range := max_val - min_val
  if value_range ≤ 0 then 0
  else max 0 (min 100 ((value - min_val) / value_range * 100))

/-! ## widgets/progress.py -/

/-- RGB colour triple. -/
abbrev Color := Nat × Nat × Nat

/-- Embedding of the `ProgressDisplay` dataclass (widgets/progress.py),
with the dataclass default values. -/
structure ProgressDisplay where
  value : ℚ
  target : ℚ := 100
  label : String := "Progress"
  unit : String := ""
  color : Color := (27, 158, 119)
  icon : Option String := none
  show_target : Bool := true
  bar_height_style : String := "normal"
  precision : Nat := 1

/-- The percentage computed in `ProgressDisplay.render`
(widgets/progress.py line 108); it is the value drawn by the bar and
printed as the percent text in all three layout branches. -/
def ProgressDisplay.percent (d : ProgressDisplay) : ℚ :=
  if d.target > 0 then min 100 (d.value / d.target * 100) else 0

/-- One item dict of `MultiProgressDisplay.items`, with the `.get`
defaults used in `MultiProgressDisplay.render` (widgets/progress.py). -/
structure MultiProgressItem where
  label : String := "Item"
  value : ℚ := 0
  target : ℚ := 100
  icon : Option String := none
  unit : String := ""

/-- The per-item percentage computed in `MultiProgressDisplay.render`
(widgets/progress.py line 377). -/
def multiProgressItemPercent (it : MultiProgressItem) : ℚ :=
  if it.target > 0 then min 100 (it.value / it.target * 100) else 0

/-- Embedding of the `MultiProgressDisplay` dataclass (widgets/progress.py). -/
structure MultiProgressDisplay where
  items : List MultiProgressItem := []
  title : Option String := none
  precision : Nat := 0

/-- The list of percentages rendered by `MultiProgressDisplay.render`,
one per item, in order. -/
def MultiProgressDisplay.itemPercents (d : MultiProgressDisplay) : List ℚ :=
  d.items.map multiProgressItemPercent

/-! ## template_utils.py

The templating engine is an external collaborator, embedded as an
oracle: `TemplateEngine.render` is the outcome of
`Template(source, hass).render(parse_result=False)` (an error value
stands for a raised `TemplateError` or other exception), and
`FloatParser.parse` is the outcome of the Python `float(...)` call on a
string, where a returned `PyFloat` keeps track of NaN and infinities. -/

/-- The `template` argument of `_render_template`: either a Python
string or a value of any other type. -/
inductive TemplateArg where
  | ofStr (s : String)
  | nonString
deriving DecidableEq

/-- Oracle for the host templating engine. -/
structure TemplateEngine where
  render : String → Except String String

/-- Result of the Python `float` constructor on a string. -/
inductive PyFloat where
  | finite (q : ℚ)
  | nan
  | posInf
  | negInf
deriving DecidableEq

/-- The `math.isfinite` predicate on an embedded Python float. -/
def PyFloat.isfinite : PyFloat → Bool
  | .finite _ => true
  | _ => false

/-- Oracle for the Python `float(string)` parser (`none` stands for a
raised `ValueError`). -/
structure FloatParser where
  parse : String → Option PyFloat

/-- Embedding of `_render_template` (template_utils.py): non-string
input gives `None`, an empty stripped source gives `None`, a template
error gives `None`, otherwise the rendered string. -/
def renderTemplateRaw (eng : TemplateEngine) (template : TemplateArg) : Option String :=
  match template with
  | .nonString => none
  | .ofStr s =>
    let source := s.trim
    if source = "" then none
    else
      match eng.render source with
      | .error _ => none
      | .ok rendered => some rendered

/-- Embedding of `render_numeric_template` (template_utils.py): render
the template, parse the result as a float, and reject unparseable or
non-finite results. -/
def render_numeric_template (eng : TemplateEngine) (fp : FloatParser)
    (template : TemplateArg) : Option ℚ :=
  match renderTemplateRaw eng template with
  | none => none
  | some rendered =>
    match fp.parse rendered with
    | none => none
    | some parsed =>
      match parsed with
      | .finite q => some q
      | _ => none

/-! ## layouts/base.py and layouts/split.py -/

/-- Display dimensions (const.py). -/
def DISPLAY_WIDTH : Int := 240

/-- Display height (const.py). -/
def DISPLAY_HEIGHT : Int := 240

/-- A slot rectangle `(x1, y1, x2, y2)`. -/
structure Rect where
  x1 : Int
  y1 : Int
  x2 : Int
  y2 : Int
deriving DecidableEq, Repr

/-- Abstract widget instance (the layouts never inspect widgets, they
only store them in slots). -/
structure Widget where
  wid : Nat
deriving DecidableEq

/-- Embedding of the `Slot` dataclass (layouts/base.py). -/
structure Slot where
  index : Nat
  rect : Rect
  widget : Option Widget := none
deriving DecidableEq

/-- The mutable state of a `Layout` instance (layouts/base.py). -/
structure LayoutState where
  padding : Int
  gap : Int
  width : Int
  height : Int
  slots : List Slot
deriving DecidableEq

/-- Python `int(...)` truncation of a rational towards zero. -/
def pyInt (q : ℚ) : Int :=
  if 0 ≤ q then ⌊q⌋ else ⌈q⌉

/-- The ratio clamp `max(0.2, min(0.8, ratio))` shared by the two split
layout constructors (layouts/split.py). -/
def clampSplitFrac (frac : ℚ) : ℚ :=
  max (2/10) (min (8/10) frac)

/-- Embedding of the `SplitHorizontal` constructor together with its
`_calculate_slots` (layouts/split.py): two side-by-side slots. -/
def splitHorizontalLayout (frac : ℚ) (padding gap : Int) : LayoutState :=
  let width := DISPLAY_WIDTH
  let height := DISPLAY_HEIGHT
  let available_width := width - 2 * padding
  let content_width := available_width - gap
  let left_width := pyInt ((content_width : ℚ) * clampSplitFrac frac)
  { padding := padding, gap := gap, width := width, height := height,
    slots :=
      [ { index := 0,
          rect := { x1 := padding, y1 := padding,
                    x2 := padding + left_width, y2 := height - padding } },
        { index := 1,
          rect := { x1 := padding + left_width + gap, y1 := padding,
                    x2 := width - padding, y2 := height - padding } } ] }

/-- Embedding of the `SplitVertical` constructor together with its
`_calculate_slots` (layouts/split.py): two stacked slots. -/
def splitVerticalLayout (frac : ℚ) (padding gap : Int) : LayoutState :=
  let width := DISPLAY_WIDTH
  let height := DISPLAY_HEIGHT
  let available_height := height - 2 * padding
  let content_height := available_height - gap
  let top_height := pyInt ((content_height : ℚ) * clampSplitFrac frac)
  { padding := padding, gap := gap, width := width, height := height,
    slots :=
      [ { index := 0,
          rect := { x1 := padding, y1 := padding,
                    x2 := width - padding, y2 := padding + top_height } },
        { index := 1,
          rect := { x1 := padding, y1 := padding + top_height + gap,
                    x2 := width - padding, y2 := height - padding } } ] }

/-- Replace the widget stored in the slot at a list position, leaving
everything else (in particular the rectangle) as it is. -/
def setSlotWidget : List Slot → Nat → Widget → List Slot
  | [], _, _ => []
  | s :: rest, 0, w => { s with widget := some w } :: rest
  | s :: rest, n + 1, w => s :: setSlotWidget rest n w

/-- Embedding of `Layout.set_widget` (layouts/base.py): store the
widget when the index is in range, otherwise do nothing. -/
def set_widget (l : LayoutState) (index : Nat) (w : Widget) : LayoutState :=
  if index < l.slots.length then
    { l with slots := setSlotWidget l.slots index w }
  else l

/-- A rectangle lies inside the display bounds and is well formed. -/
def Rect.withinDisplay (r : Rect) : Prop :=
  0 ≤ r.x1 ∧ r.x1 ≤ r.x2 ∧ r.x2 ≤ DISPLAY_WIDTH ∧
  0 ≤ r.y1 ∧ r.y1 ≤ r.y2 ∧ r.y2 ≤ DISPLAY_HEIGHT

/-- Two rectangles share no point (regions taken with inclusive
borders, as PIL draws them). -/
def Rect.disjointFrom (a b : Rect) : Prop :=
  a.x2 < b.x1 ∨ b.x2 < a.x1 ∨ a.y2 < b.y1 ∨ b.y2 < a.y1

/-! ## widgets/theme.py -/

/-- Embedding of the frozen `Theme` dataclass (widgets/theme.py), with
its field defaults. The `accent_colors` tuple becomes a list. -/
structure Theme where
  name : String
  primary : Color := (27, 158, 119)
  secondary : Color := (117, 112, 179)
  success : Color := (102, 166, 30)
  warning : Color := (230, 171, 2)
  error : Color := (231, 76, 60)
  muted : Color := (100, 100, 100)
  background : Color := (0, 0, 0)
  surface : Color := (18, 18, 18)
  surface_variant : Color := (30, 30, 30)
  border : Color := (60, 60, 60)
  text_primary : Color := (255, 255, 255)
  text_secondary : Color := (150, 150, 150)
  text_on_primary : Color := (255, 255, 255)
  accent_colors : List Color :=
    [(27, 158, 119), (217, 95, 2), (117, 112, 179),
     (231, 41, 138), (102, 166, 30), (230, 171, 2)]
  corner_radius : Nat := 8
  border_width : Nat := 0
  border_style : String := "none"
  layout_padding : Nat := 8
  widget_padding : Nat := 6
  gap : Nat := 6
  value_bold : Bool := true
  label_weight : String := "regular"
  glow_effect : Bool := false
  scanlines : Bool := false
  invert_bars : Bool := false
  bar_background : Color := (50, 50, 50)
deriving DecidableEq

/-- Embedding of `Theme.get_accent_color` (widgets/theme.py line 104):
index into `accent_colors` at `index % len(accent_colors)` (totalised
with a dummy colour; the theorems show the dummy is never used for
registered themes). -/
def Theme.get_accent_color (t : Theme) (index : Nat) : Color :=
  t.accent_colors.getD (index % t.accent_colors.length) (0, 0, 0)

/-- Theme 1: classic (widgets/theme.py). -/
def THEME_CLASSIC : Theme :=
  { name := "classic"
    primary := (27, 158, 119), secondary := (117, 112, 179)
    success := (102, 166, 30), warning := (230, 171, 2)
    error := (231, 76, 60), muted := (100, 100, 100)
    background := (0, 0, 0), surface := (18, 18, 18)
    surface_variant := (28, 28, 28), border := (60, 60, 60)
    text_primary := (255, 255, 255), text_secondary := (150, 150, 150)
    text_on_primary := (255, 255, 255)
    accent_colors :=
      [(27, 158, 119), (217, 95, 2), (117, 112, 179),
       (231, 41, 138), (102, 166, 30), (230, 171, 2)]
    corner_radius := 8, border_width := 0, border_style := "none"
    bar_background := (50, 50, 50) }

/-- Theme 2: minimal (widgets/theme.py). -/
def THEME_MINIMAL : Theme :=
  { name := "minimal"
    primary := (100, 200, 255), secondary := (180, 180, 180)
    success := (100, 200, 100), warning := (255, 200, 100)
    error := (255, 100, 100), muted := (80, 80, 80)
    background := (0, 0, 0), surface := (0, 0, 0)
    surface_variant := (15, 15, 15), border := (80, 80, 80)
    text_primary := (255, 255, 255), text_secondary := (120, 120, 120)
    text_on_primary := (0, 0, 0)
    accent_colors := [(100, 200, 255)]
    corner_radius := 0, border_width := 1, border_style := "solid"
    layout_padding := 4, widget_padding := 4, gap := 4
    value_bold := false, label_weight := "light"
    bar_background := (40, 40, 40) }

/-- Theme 3: neon (widgets/theme.py). -/
def THEME_NEON : Theme :=
  { name := "neon"
    primary := (0, 255, 255), secondary := (255, 0, 255)
    success := (0, 255, 128), warning := (255, 255, 0)
    error := (255, 50, 50), muted := (80, 80, 100)
    background := (5, 5, 15), surface := (10, 10, 20)
    surface_variant := (15, 15, 30), border := (0, 255, 255)
    text_primary := (255, 255, 255), text_secondary := (200, 200, 220)
    text_on_primary := (0, 0, 0)
    accent_colors :=
      [(0, 255, 255), (255, 0, 255), (0, 255, 128),
       (255, 100, 200), (100, 200, 255), (255, 255, 0)]
    corner_radius := 4, border_width := 2, border_style := "solid"
    glow_effect := true
    bar_background := (20, 20, 40) }

/-- Theme 4: retro (widgets/theme.py). -/
def THEME_RETRO : Theme :=
  { name := "retro"
    primary := (0, 255, 0), secondary := (255, 180, 0)
    success := (0, 255, 0), warning := (255, 180, 0)
    error := (255, 50, 0), muted := (0, 100, 0)
    background := (0, 8, 0), surface := (0, 0, 0)
    surface_variant := (0, 15, 0), border := (0, 180, 0)
    text_primary := (0, 255, 0), text_secondary := (0, 150, 0)
    text_on_primary := (0, 0, 0)
    accent_colors := [(0, 255, 0), (255, 180, 0)]
    corner_radius := 0, border_width := 1, border_style := "outline"
    layout_padding := 10, widget_padding := 8, gap := 8
    scanlines := true, invert_bars := true
    bar_background := (0, 40, 0) }

/-- Theme 5: soft (widgets/theme.py). -/
def THEME_SOFT : Theme :=
  { name := "soft"
    primary := (120, 180, 220), secondary := (180, 140, 200)
    success := (140, 200, 160), warning := (220, 180, 140)
    error := (220, 140, 140), muted := (100, 100, 115)
    background := (15, 15, 20), surface := (30, 30, 40)
    surface_variant := (40, 40, 55), border := (50, 50, 65)
    text_primary := (240, 240, 245), text_secondary := (140, 140, 155)
    text_on_primary := (20, 20, 30)
    accent_colors :=
      [(120, 180, 220), (180, 140, 200), (140, 200, 160),
       (220, 180, 140), (200, 150, 180), (180, 200, 140)]
    corner_radius := 16, border_width := 1, border_style := "solid"
    layout_padding := 10, widget_padding := 8, gap := 8
    value_bold := false
    bar_background := (45, 45, 60) }

/-- Theme 6: light (widgets/theme.py). -/
def THEME_LIGHT : Theme :=
  { name := "light"
    primary := (0, 122, 204), secondary := (102, 45, 145)
    success := (40, 167, 69), warning := (255, 193, 7)
    error := (220, 53, 69), muted := (180, 180, 180)
    background := (255, 255, 255), surface := (255, 255, 255)
    surface_variant := (250, 250, 252), border := (230, 230, 235)
    text_primary := (30, 30, 35), text_secondary := (100, 100, 110)
    text_on_primary := (255, 255, 255)
    accent_colors :=
      [(0, 122, 204), (102, 45, 145), (40, 167, 69),
       (255, 140, 0), (220, 53, 69), (23, 162, 184)]
    corner_radius := 12, border_width := 0, border_style := "none"
    layout_padding := 8, widget_padding := 6, gap := 6
    bar_background := (235, 235, 240) }

/-- Theme 7: ocean (widgets/theme.py). -/
def THEME_OCEAN : Theme :=
  { name := "ocean"
    primary := (0, 180, 216), secondary := (72, 202, 228)
    success := (0, 200, 150), warning := (255, 200, 87)
    error := (255, 107, 107), muted := (70, 100, 120)
    background := (3, 37, 65), surface := (10, 50, 80)
    surface_variant := (15, 60, 95), border := (30, 90, 130)
    text_primary := (240, 248, 255), text_secondary := (150, 190, 210)
    text_on_primary := (0, 30, 50)
    accent_colors :=
      [(0, 180, 216), (72, 202, 228), (144, 224, 239),
       (0, 200, 150), (255, 200, 87), (100, 150, 200)]
    corner_radius := 10, border_width := 1, border_style := "solid"
    bar_background := (20, 60, 90) }

/-- Theme 8: sunset (widgets/theme.py). -/
def THEME_SUNSET : Theme :=
  { name := "sunset"
    primary := (255, 107, 107), secondary := (255, 159, 67)
    success := (106, 176, 76), warning := (255, 200, 87)
    error := (255, 71, 87), muted := (130, 100, 100)
    background := (30, 20, 25), surface := (45, 30, 35)
    surface_variant := (55, 38, 45), border := (80, 55, 60)
    text_primary := (255, 245, 238), text_secondary := (180, 150, 150)
    text_on_primary := (40, 20, 25)
    accent_colors :=
      [(255, 107, 107), (255, 159, 67), (255, 200, 87),
       (255, 140, 140), (200, 120, 180), (255, 180, 120)]
    corner_radius := 14, border_width := 0, border_style := "none"
    bar_background := (60, 45, 50) }

/-- Theme 9: forest (widgets/theme.py). -/
def THEME_FOREST : Theme :=
  { name := "forest"
    primary := (76, 175, 80), secondary := (139, 195, 74)
    success := (76, 175, 80), warning := (205, 175, 60)
    error := (192, 86, 64), muted := (90, 100, 85)
    background := (20, 28, 20), surface := (30, 42, 30)
    surface_variant := (38, 52, 38), border := (60, 80, 60)
    text_primary := (240, 245, 235), text_secondary := (160, 175, 155)
    text_on_primary := (20, 30, 20)
    accent_colors :=
      [(76, 175, 80), (139, 195, 74), (205, 175, 60),
       (165, 130, 95), (100, 160, 130), (180, 200, 100)]
    corner_radius := 6, border_width := 1, border_style := "solid"
    bar_background := (40, 55, 40) }

/-- Theme 10: candy (widgets/theme.py). -/
def THEME_CANDY : Theme :=
  { name := "candy"
    primary := (255, 105, 180), secondary := (138, 207, 255)
    success := (144, 238, 144), warning := (255, 218, 121)
    error := (255, 150, 150), muted := (200, 180, 200)
    background := (255, 240, 245), surface := (255, 250, 252)
    surface_variant := (255, 235, 242), border := (255, 200, 220)
    text_primary := (80, 60, 80), text_secondary := (140, 120, 140)
    text_on_primary := (255, 255, 255)
    accent_colors :=
      [(255, 105, 180), (138, 207, 255), (255, 182, 193),
       (152, 251, 152), (255, 218, 121), (221, 160, 221)]
    corner_radius := 20, border_width := 2, border_style := "solid"
    layout_padding := 10, widget_padding := 8, gap := 8
    bar_background := (255, 220, 235) }

/-- Theme 11: oak_yellow (widgets/theme.py). -/
def THEME_OAK_YELLOW : Theme :=
  { name := "oak_yellow"
    primary := (214, 170, 88), secondary := (186, 150, 74)
    success := (173, 199, 85), warning := (232, 183, 72)
    error := (210, 94, 70), muted := (120, 110, 90)
    background := (44, 34, 10), surface := (0, 0, 0)
    surface_variant := (10, 10, 10), border := (184, 142, 72)
    text_primary := (245, 235, 210), text_secondary := (170, 155, 120)
    text_on_primary := (15, 12, 8)
    accent_colors :=
      [(214, 170, 88), (232, 183, 72), (196, 154, 76),
       (173, 199, 85), (145, 180, 205), (210, 94, 70)]
    corner_radius := 8, border_width := 2, border_style := "solid"
    bar_background := (40, 34, 24) }

/-- Theme 12: amber_yellow (widgets/theme.py). -/
def THEME_AMBER_YELLOW : Theme :=
  { name := "amber_yellow"
    primary := (242, 188, 56), secondary := (255, 214, 92)
    success := (170, 205, 95), warning := (255, 205, 70)
    error := (225, 98, 72), muted := (130, 120, 95)
    background := (56, 42, 10), surface := (0, 0, 0)
    surface_variant := (12, 12, 12), border := (242, 188, 56)
    text_primary := (255, 246, 218), text_secondary := (190, 170, 120)
    text_on_primary := (20, 14, 4)
    accent_colors :=
      [(242, 188, 56), (255, 214, 92), (224, 170, 52),
       (170, 205, 95), (110, 170, 210), (225, 98, 72)]
    corner_radius := 8, border_width := 2, border_style := "solid"
    bar_background := (46, 36, 20) }

/-- Theme 13: slate_mint (widgets/theme.py). -/
def THEME_SLATE_MINT : Theme :=
  { name := "slate_mint"
    primary := (122, 196, 173), secondary := (109, 146, 166)
    success := (140, 181, 124), warning := (206, 172, 104)
    error := (188, 102, 98), muted := (108, 120, 122)
    background := (22, 27, 30), surface := (34, 40, 43)
    surface_variant := (43, 50, 54), border := (92, 154, 138)
    text_primary := (234, 239, 236), text_secondary := (159, 171, 167)
    text_on_primary := (16, 27, 24)
    accent_colors :=
      [(122, 196, 173), (109, 146, 166), (206, 172, 104),
       (188, 102, 98), (140, 181, 124), (165, 189, 194)]
    corner_radius := 10, border_width := 1, border_style := "solid"
    bar_background := (57, 64, 67) }

/-- Theme 14: terracotta_dusk (widgets/theme.py). -/
def THEME_TERRACOTTA_DUSK : Theme :=
  { name := "terracotta_dusk"
    primary := (206, 135, 103), secondary := (189, 157, 117)
    success := (149, 175, 119), warning := (214, 173, 105)
    error := (182, 91, 79), muted := (134, 113, 97)
    background := (50, 37, 32), surface := (71, 53, 45)
    surface_variant := (82, 62, 52), border := (176, 118, 92)
    text_primary := (246, 236, 224), text_secondary := (188, 162, 141)
    text_on_primary := (38, 25, 20)
    accent_colors :=
      [(206, 135, 103), (176, 118, 92), (189, 157, 117),
       (149, 175, 119), (128, 150, 166), (182, 91, 79)]
    corner_radius := 10, border_width := 1, border_style := "solid"
    bar_background := (95, 74, 61) }

/-- Theme 15: nordic_fog (widgets/theme.py). -/
def THEME_NORDIC_FOG : Theme :=
  { name := "nordic_fog"
    primary := (92, 124, 139), secondary := (120, 145, 156)
    success := (111, 148, 124), warning := (186, 154, 101)
    error := (176, 103, 103), muted := (169, 178, 181)
    background := (223, 229, 231), surface := (245, 247, 247)
    surface_variant := (234, 238, 239), border := (171, 184, 188)
    text_primary := (42, 50, 55), text_secondary := (99, 112, 118)
    text_on_primary := (246, 248, 248)
    accent_colors :=
      [(92, 124, 139), (120, 145, 156), (111, 148, 124),
       (186, 154, 101), (176, 103, 103), (132, 160, 171)]
    corner_radius := 14, border_width := 1, border_style := "solid"
    value_bold := false
    bar_background := (212, 219, 222) }

/-- Theme 16: graphite_copper (widgets/theme.py). -/
def THEME_GRAPHITE_COPPER : Theme :=
  { name := "graphite_copper"
    primary := (181, 126, 96), secondary := (132, 149, 160)
    success := (131, 164, 122), warning := (197, 158, 101)
    error := (185, 95, 84), muted := (116, 108, 104)
    background := (20, 18, 18), surface := (34, 30, 30)
    surface_variant := (44, 39, 37), border := (154, 108, 82)
    text_primary := (239, 230, 222), text_secondary := (167, 151, 140)
    text_on_primary := (24, 18, 15)
    accent_colors :=
      [(181, 126, 96), (154, 108, 82), (132, 149, 160),
       (131, 164, 122), (197, 158, 101), (185, 95, 84)]
    corner_radius := 8, border_width := 2, border_style := "solid"
    bar_background := (61, 53, 48) }

/-- Theme 17: petrol_bloom (widgets/theme.py). -/
def THEME_PETROL_BLOOM : Theme :=
  { name := "petrol_bloom"
    primary := (105, 173, 182), secondary := (182, 129, 156)
    success := (126, 176, 142), warning := (207, 176, 109)
    error := (196, 107, 110), muted := (97, 123, 129)
    background := (16, 31, 36), surface := (23, 43, 49)
    surface_variant := (31, 55, 61), border := (76, 130, 139)
    text_primary := (226, 238, 239), text_secondary := (150, 174, 179)
    text_on_primary := (13, 27, 30)
    accent_colors :=
      [(105, 173, 182), (182, 129, 156), (126, 176, 142),
       (207, 176, 109), (196, 107, 110), (132, 162, 184)]
    corner_radius := 12, border_width := 1, border_style := "solid"
    bar_background := (45, 69, 75) }

/-- Embedding of the `THEMES` registry dict (widgets/theme.py), as an
association list in the same order. -/
def THEMES : List (String × Theme) :=
  [("classic", THEME_CLASSIC), ("minimal", THEME_MINIMAL),
   ("neon", THEME_NEON), ("retro", THEME_RETRO), ("soft", THEME_SOFT),
   ("light", THEME_LIGHT), ("ocean", THEME_OCEAN),
   ("sunset", THEME_SUNSET), ("forest", THEME_FOREST),
   ("candy", THEME_CANDY), ("oak_yellow", THEME_OAK_YELLOW),
   ("amber_yellow", THEME_AMBER_YELLOW), ("slate_mint", THEME_SLATE_MINT),
   ("terracotta_dusk", THEME_TERRACOTTA_DUSK),
   ("nordic_fog", THEME_NORDIC_FOG),
   ("graphite_copper", THEME_GRAPHITE_COPPER),
   ("petrol_bloom", THEME_PETROL_BLOOM)]

/-- The module-level default theme (widgets/theme.py). -/
def DEFAULT_THEME : Theme := THEME_CLASSIC

/-- Embedding of `get_theme` (widgets/theme.py): `THEMES.get(name,
DEFAULT_THEME)`. -/
def get_theme (name : String) : Theme :=
  (THEMES.lookup name).getD DEFAULT_THEME

/-! ## coordinator.py

Python option dictionaries are embedded as association lists over an
untyped value type, times as rationals, and the fallible pipeline steps
(layout rendering, PNG and JPEG encoding, device upload) as `Except`
valued oracles recording the outcome of the single attempt the cycle
makes at each step. -/

/-- Untyped Python value, enough for the option dictionaries the
coordinator manipulates. -/
inductive PyVal where
  | pstr (s : String)
  | pint (n : Int)
  | plist (l : List PyVal)
  | pdict (d : List (String × PyVal))

/-- Python `dict` lookup on an association list. -/
def dictLookup (d : List (String × PyVal)) (k : String) : Option PyVal :=
  match d with
  | [] => none
  | (k0, v) :: rest => if k0 = k then some v else dictLookup rest k

/-- Python `dict.get(key, default)`. -/
def dictGetD (d : List (String × PyVal)) (k : String) (dflt : PyVal) : PyVal :=
  (dictLookup d k).getD dflt

/-- Python `key in dict`. -/
def dictContains (d : List (String × PyVal)) (k : String) : Bool :=
  (dictLookup d k).isSome

/-- Option key constant (const.py). -/
def CONF_REFRESH_INTERVAL : String := "refresh_interval"

/-- Option key constant (const.py). -/
def CONF_SCREEN_CYCLE_INTERVAL : String := "screen_cycle_interval"

/-- Option key constant (const.py). -/
def CONF_SCREENS : String := "screens"

/-- Option key constant (const.py). -/
def CONF_LAYOUT : String := "layout"

/-- Option key constant (const.py). -/
def CONF_WIDGETS : String := "widgets"

/-- Default refresh interval in seconds (const.py). -/
def DEFAULT_REFRESH_INTERVAL : PyVal := .pint 10

/-- Default screen cycle interval in seconds (const.py). -/
def DEFAULT_SCREEN_CYCLE_INTERVAL : PyVal := .pint 0

/-- Layout type constant (const.py). -/
def LAYOUT_GRID_2X2 : String := "grid_2x2"

/-- Embedding of `GeekMagicCoordinator._migrate_options`
(coordinator.py): options that already hold a `screens` key are
returned unchanged; otherwise the old single-screen options are wrapped
into the multi-screen shape. -/
def migrate_options (options : List (String × PyVal)) : List (String × PyVal) :=
  if dictContains options CONF_SCREENS then options
  else
    [(CONF_REFRESH_INTERVAL,
      dictGetD options CONF_REFRESH_INTERVAL DEFAULT_REFRESH_INTERVAL),
     (CONF_SCREEN_CYCLE_INTERVAL, DEFAULT_SCREEN_CYCLE_INTERVAL),
     (CONF_SCREENS,
      .plist
        [.pdict
          [("name", .pstr "Screen 1"),
           (CONF_LAYOUT, dictGetD options CONF_LAYOUT (.pstr LAYOUT_GRID_2X2)),
           (CONF_WIDGETS,
            dictGetD options CONF_WIDGETS
              (.plist [.pdict [("type", .pstr "clock"), ("slot", .pint 0)]]))]])]

/-- The screen-cycling slice of the coordinator state: the current
screen index and the timestamp of the last screen change. -/
structure CycleState where
  currentScreen : Int
  lastScreenChange : ℚ
deriving DecidableEq

/-- Embedding of the auto-cycling step at the top of
`_async_update_data` (coordinator.py lines 259-267): when the cycle
interval is positive, there is more than one layout, and the interval
has elapsed, advance one screen and stamp the change; otherwise leave
the state alone. -/
def autoCycle (cycle_interval : ℚ) (numLayouts : Nat) (now : ℚ)
    (st : CycleState) : CycleState :=
  if cycle_interval > 0 ∧ 1 < numLayouts then
    if now - st.lastScreenChange ≥ cycle_interval then
      { currentScreen := (st.currentScreen + 1) % (numLayouts : Int),
        lastScreenChange := now }
    else st
  else st

/-- The slice of coordinator state used by the screen-switch services:
the number of layouts plus the cycling state. -/
structure ScreenState where
  numLayouts : Nat
  currentScreen : Int
  lastScreenChange : ℚ
deriving DecidableEq

/-- Embedding of `async_set_screen` (coordinator.py): switch to the
index when it is in range, stamping the change time. -/
def async_set_screen (st : ScreenState) (screen_index : Int) (now : ℚ) : ScreenState :=
  if 0 ≤ screen_index ∧ screen_index < (st.numLayouts : Int) then
    { st with currentScreen := screen_index, lastScreenChange := now }
  else st

/-- Embedding of `async_next_screen` (coordinator.py). -/
def async_next_screen (st : ScreenState) (now : ℚ) : ScreenState :=
  if 0 < st.numLayouts then
    async_set_screen st ((st.currentScreen + 1) % (st.numLayouts : Int)) now
  else st

/-- Embedding of `async_previous_screen` (coordinator.py). -/
def async_previous_screen (st : ScreenState) (now : ℚ) : ScreenState :=
  if 0 < st.numLayouts then
    async_set_screen st ((st.currentScreen - 1) % (st.numLayouts : Int)) now
  else st

/-- Coordinator state touched by `_async_update_data`: the screen set,
cycling state, and the cached preview image. -/
structure CoordinatorState where
  numLayouts : Nat
  currentScreen : Int
  lastScreenChange : ℚ
  lastImage : Option (List Nat) := none
  screenNames : List (Option String) := []
deriving DecidableEq

/-- Embedding of the `current_screen_name` property (coordinator.py):
the configured name of the current screen, a positional default, or
`Unknown` when the index is out of range. -/
def currentScreenName (st : CoordinatorState) : String :=
  if 0 ≤ st.currentScreen ∧ st.currentScreen < (st.screenNames.length : Int) then
    match st.screenNames.getD st.currentScreen.toNat none with
    | some n => n
    | none => "Screen " ++ toString (st.currentScreen + 1)
  else "Unknown"

/-- The environment of one run of `_async_update_data`: the configured
cycle interval, the wall clock, and the outcome of the single attempt
the cycle makes at each fallible pipeline step. -/
structure UpdateEnv where
  cycle_interval : ℚ
  now : ℚ
  renderResult : Except String Unit
  pngResult : Except String (List Nat)
  jpegResult : Except String (List Nat)
  uploadResult : Except String Unit

/-- The dict returned by a successful `_async_update_data` run. -/
structure UpdateOutcome where
  success : Bool
  size_kb : ℚ
  current_screen : Int
  screen_name : String
deriving DecidableEq

/-- The observable result of one update cycle: the raised-or-returned
value, the coordinator state afterwards, and how many upload attempts
were made against the device during the cycle. -/
structure UpdateRun where
  result : Except String UpdateOutcome
  state : CoordinatorState
  uploadAttempts : Nat

/-- Embedding of `GeekMagicCoordinator._async_update_data`
(coordinator.py lines 252-293): auto-cycle, render the current screen
(when one exists), encode to PNG (cached for the camera preview), then
to JPEG, upload once, and report success; the first failing step turns
the whole cycle into an `UpdateFailed` error with no further attempt. -/
def asyncUpdateData (env : UpdateEnv) (st : CoordinatorState) : UpdateRun :=
  let cyc := autoCycle env.cycle_interval st.numLayouts env.now
    { currentScreen := st.currentScreen, lastScreenChange := st.lastScreenChange }
  let st1 : CoordinatorState :=
    { st with currentScreen := cyc.currentScreen,
              lastScreenChange := cyc.lastScreenChange }
  let renderStep : Except String Unit :=
    if st1.numLayouts ≠ 0 ∧ 0 ≤ st1.currentScreen ∧
        st1.currentScreen < (st1.numLayouts : Int) then
      env.renderResult
    else .ok ()
  match renderStep with
  | .error e =>
    { result := .error ("Error updating display: " ++ e), state := st1,
      uploadAttempts := 0 }
  | .ok _ =>
    match env.pngResult with
    | .error e =>
      { result := .error ("Error updating display: " ++ e), state := st1,
        uploadAttempts := 0 }
    | .ok png =>
      let st2 : CoordinatorState := { st1 with lastImage := some png }
      match env.jpegResult with
      | .error e =>
        { result := .error ("Error updating display: " ++ e), state := st2,
          uploadAttempts := 0 }
      | .ok jpeg =>
        match env.uploadResult with
        | .error e =>
          { result := .error ("Error updating display: " ++ e), state := st2,
            uploadAttempts := 1 }
        | .ok _ =>
          { result := .ok
              { success := true,
                size_kb := (jpeg.length : ℚ) / 1024,
                current_screen := st2.currentScreen,
                screen_name := currentScreenName st2 },
            state := st2,
            uploadAttempts := 1 }

/-- All the fallible steps a cycle would execute from the given state
succeed (the render outcome only counts when a screen gets rendered). -/
def UpdateEnv.allStepsOk (env : UpdateEnv) (st : CoordinatorState) : Prop :=
  (let cyc := autoCycle env.cycle_interval st.numLayouts env.now
    { currentScreen := st.currentScreen, lastScreenChange := st.lastScreenChange }
   (st.numLayouts ≠ 0 ∧ 0 ≤ cyc.currentScreen ∧
      cyc.currentScreen < (st.numLayouts : Int)) →
     ∃ u, env.renderResult = .ok u) ∧
  (∃ png, env.pngResult = .ok png) ∧
  (∃ jpeg, env.jpegResult = .ok jpeg) ∧
  (∃ u, env.uploadResult = .ok u)

/-! ## Theorems -/

/-- C4: `calculate_percent` returns 0 when the range is empty or
inverted, otherwise the linear percentage clamped to the interval
`[0, 100]`; the result always lies in `[0, 100]` and, for a fixed
range, is monotone non-decreasing in the value. -/
theorem C4_calculate_percent (value min_val max_val value2 : ℚ) :
    (max_val - min_val ≤ 0 → calculate_percent value min_val max_val = 0) ∧
    (0 < max_val - min_val →
      calculate_percent value min_val max_val =
        max 0 (min 100 ((value - min_val) / (max_val - min_val) * 100))) ∧
    0 ≤ calculate_percent value min_val max_val ∧
    calculate_percent value min_val max_val ≤ 100 ∧
    (value ≤ value2 →
      calculate_percent value min_val max_val ≤
        calculate_percent value2 min_val max_val) := by
  by_cases h : max_val - min_val ≤ 0
  · have e1 : calculate_percent value min_val max_val = 0 := by
      simp [calculate_percent, h]
    have e2 : calculate_percent value2 min_val max_val = 0 := by
      simp [calculate_percent, h]
    refine ⟨fun _ => e1, fun hc => absurd h (not_le.mpr hc), ?_, ?_, fun _ => ?_⟩
    · rw [e1]
    · rw [e1]; norm_num
    · rw [e1, e2]
  · push_neg at h
    have e1 : calculate_percent value min_val max_val =
        max 0 (min 100 ((value - min_val) / (max_val - min_val) * 100)) := by
      simp [calculate_percent, not_le.mpr h]
    have e2 : calculate_percent value2 min_val max_val =
        max 0 (min 100 ((value2 - min_val) / (max_val - min_val) * 100)) := by
      simp [calculate_percent, not_le.mpr h]
    refine ⟨fun hc => absurd hc (not_le.mpr h), fun _ => e1, ?_, ?_, fun hv => ?_⟩
    · rw [e1]; exact le_max_left _ _
    · rw [e1]; exact max_le (by norm_num) (min_le_left _ _)
    · rw [e1, e2]
      apply max_le_max (le_refl _)
      apply min_le_min (le_refl _)
      have hd : (value - min_val) / (max_val - min_val) ≤
          (value2 - min_val) / (max_val - min_val) :=
        div_le_div_of_nonneg_right (by linarith) h.le
      nlinarith [hd]

/-- C4 witness: a concrete evaluation of `calculate_percent` through
the theorem. -/
theorem C4_calculate_percent_witness :
    calculate_percent 50 0 200 =
      max 0 (min 100 ((50 - 0) / (200 - 0) * 100)) ∧
    calculate_percent 50 0 200 ≤ calculate_percent 60 0 200 := by
  have h := C4_calculate_percent 50 0 200 60
  exact ⟨h.2.1 (by norm_num), h.2.2.2.2 (by norm_num)⟩

/-- C10: `truncate_text` returns the text unchanged whenever it fits,
with no side condition on the suffix; and when the budget is at least
the suffix length the result never exceeds the budget, a truncated
result being the prefix of the text of length `max_chars - len(suffix)`
followed by the suffix. -/
theorem C10_truncate_text (text sfx : List Char) (max_chars : Int) :
    ((text.length : Int) ≤ max_chars →
      truncate_text text max_chars sfx = text) ∧
    ((sfx.length : Int) ≤ max_chars →
      ((truncate_text text max_chars sfx).length : Int) ≤ max_chars ∧
      (max_chars < (text.length : Int) →
        truncate_text text max_chars sfx =
          text.take (max_chars - sfx.length).toNat ++ sfx)) := by
  refine ⟨fun hfit => by rw [truncate_text, if_pos hfit], fun h => ⟨?_, fun hlt => ?_⟩⟩
  · by_cases hfit : (text.length : Int) ≤ max_chars
    · rw [truncate_text, if_pos hfit]; exact hfit
    · have h0 : (0 : Int) ≤ max_chars - sfx.length := by omega
      have hk : (max_chars - (sfx.length : Int)).toNat ≤ text.length := by omega
      rw [truncate_text, if_neg hfit, pySliceTo, if_pos h0,
        List.length_append, List.length_take, min_eq_left hk]
      push_cast
      omega
  · have hfit : ¬ (text.length : Int) ≤ max_chars := by omega
    have h0 : (0 : Int) ≤ max_chars - sfx.length := by omega
    rw [truncate_text, if_neg hfit, pySliceTo, if_pos h0]

/-- C10 witness: a one-character budget with the two-character default
suffix still returns a fitting text unchanged, and a five-character
text truncated to four characters yields the prefix plus suffix, both
through the theorem. -/
theorem C10_truncate_text_witness :
    truncate_text ['h'] 1 ['.', '.'] = ['h'] ∧
    ((truncate_text ['h', 'e', 'l', 'l', 'o'] 4 ['.', '.']).length : Int) ≤ 4 ∧
    truncate_text ['h', 'e', 'l', 'l', 'o'] 4 ['.', '.'] =
      ['h', 'e', 'l', 'l', 'o'].take ((4 : Int) - 2).toNat ++ ['.', '.'] := by
  have h1 := (C10_truncate_text ['h'] ['.', '.'] 1).1 (by norm_num)
  have h2 := (C10_truncate_text ['h', 'e', 'l', 'l', 'o'] ['.', '.'] 4).2
    (by norm_num)
  exact ⟨h1, h2.1, h2.2 (by norm_num)⟩

/-- C2: the auto-cycling step advances the current screen by exactly
one modulo the screen count and resets the change timestamp precisely
when the interval is positive, more than one screen exists, and the
interval has elapsed; in every other case it leaves the state alone. -/
theorem C2_auto_cycle (cycle_interval : ℚ) (numLayouts : Nat) (now : ℚ)
    (st : CycleState) :
    ((0 < cycle_interval ∧ 1 < numLayouts ∧
        cycle_interval ≤ now - st.lastScreenChange) →
      autoCycle cycle_interval numLayouts now st =
        { currentScreen := (st.currentScreen + 1) % (numLayouts : Int),
          lastScreenChange := now }) ∧
    (¬ (0 < cycle_interval ∧ 1 < numLayouts ∧
        cycle_interval ≤ now - st.lastScreenChange) →
      autoCycle cycle_interval numLayouts now st = st) := by
  unfold autoCycle
  split_ifs with h1 h2
  · exact ⟨fun _ => rfl, fun hc => absurd ⟨h1.1, h1.2, h2⟩ hc⟩
  · exact ⟨fun hc => absurd hc.2.2 h2, fun _ => rfl⟩
  · refine ⟨fun hc => absurd ⟨hc.1, hc.2.1⟩ h1, fun _ => rfl⟩

/-- C2 witness: with a 5-second interval, 3 screens, and 10 seconds
elapsed, the cycling step advances screen 0 to screen 1 and stamps the
change at the current time. -/
theorem C2_auto_cycle_witness :
    autoCycle 5 3 10 { currentScreen := 0, lastScreenChange := 0 } =
      { currentScreen := 1, lastScreenChange := 10 } := by
  have h := (C2_auto_cycle 5 3 10
    { currentScreen := 0, lastScreenChange := 0 }).1 (by norm_num)
  rw [h]
  decide

/-- C3 counterexample: a progress value of -50 against the default
target 100 makes both the single and the multi progress widget display
-50 percent, outside the claimed interval `[0, 100]`. -/
theorem C3_counterexample :
    ProgressDisplay.percent { value := -50 } = -50 ∧
    ¬ (0 ≤ ProgressDisplay.percent { value := -50 }) ∧
    multiProgressItemPercent { value := -50 } = -50 ∧
    ¬ (0 ≤ multiProgressItemPercent { value := -50 }) := by
  have h1 : ProgressDisplay.percent { value := -50 } = -50 := by
    simp only [ProgressDisplay.percent]
    norm_num [min_def]
  have h2 : multiProgressItemPercent { value := -50 } = -50 := by
    simp only [multiProgressItemPercent]
    norm_num [min_def]
  exact ⟨h1, by rw [h1]; norm_num, h2, by rw [h2]; norm_num⟩

/-- C3 amended: when the target is positive the displayed percentage
equals `min(100, value/target*100)` (so it never exceeds 100, and is
nonnegative whenever the value is nonnegative, but is not clamped from
below for negative values); when the target is not positive it is 0.
This holds for the progress widget and for every multi-progress item. -/
theorem C3_percent_amended (d : ProgressDisplay) (it : MultiProgressItem) :
    (0 < d.target →
      d.percent = min 100 (d.value / d.target * 100) ∧
      d.percent ≤ 100 ∧ (0 ≤ d.value → 0 ≤ d.percent)) ∧
    (d.target ≤ 0 → d.percent = 0) ∧
    (0 < it.target →
      multiProgressItemPercent it = min 100 (it.value / it.target * 100) ∧
      multiProgressItemPercent it ≤ 100 ∧
      (0 ≤ it.value → 0 ≤ multiProgressItemPercent it)) ∧
    (it.target ≤ 0 → multiProgressItemPercent it = 0) := by
  refine ⟨fun ht => ?_, fun ht => ?_, fun ht => ?_, fun ht => ?_⟩
  · rw [ProgressDisplay.percent, if_pos ht]
    refine ⟨rfl, min_le_left _ _, fun hv => ?_⟩
    exact le_min (by norm_num) (mul_nonneg (div_nonneg hv ht.le) (by norm_num))
  · rw [ProgressDisplay.percent, if_neg (not_lt.mpr ht)]
  · rw [multiProgressItemPercent, if_pos ht]
    refine ⟨rfl, min_le_left _ _, fun hv => ?_⟩
    exact le_min (by norm_num) (mul_nonneg (div_nonneg hv ht.le) (by norm_num))
  · rw [multiProgressItemPercent, if_neg (not_lt.mpr ht)]

/-- C3 amended witness: a nonnegative value of 50 against the default
target gives 50 percent for both widgets, through the theorem. -/
theorem C3_percent_amended_witness :
    ProgressDisplay.percent { value := 50 } =
      min 100 ((50 : ℚ) / 100 * 100) ∧
    multiProgressItemPercent { value := 50 } =
      min 100 ((50 : ℚ) / 100 * 100) := by
  have h := C3_percent_amended { value := 50 } { value := 50 }
  exact ⟨(h.1 (show (0 : ℚ) < 100 by norm_num)).1,
    (h.2.2.1 (show (0 : ℚ) < 100 by norm_num)).1⟩

/-- C6: `render_numeric_template` returns a number exactly when its
argument is a string whose stripped source is non-empty, the engine
renders it without error, and the result parses as a finite float; the
returned number is that parsed value. In every other case (non-string
input, empty source, template error, unparseable result, NaN or
infinity) it returns none. -/
theorem C6_render_numeric_template (eng : TemplateEngine) (fp : FloatParser)
    (template : TemplateArg) (x : ℚ) :
    render_numeric_template eng fp template = some x ↔
      ∃ s, template = .ofStr s ∧ s.trim ≠ "" ∧
        ∃ r, eng.render s.trim = .ok r ∧ fp.parse r = some (.finite x) := by
  cases template with
  | nonString => simp [render_numeric_template, renderTemplateRaw]
  | ofStr s =>
    simp only [render_numeric_template, renderTemplateRaw, TemplateArg.ofStr.injEq]
    by_cases hs : s.trim = ""
    · simp only [if_pos hs]
      constructor
      · intro hcontra; exact absurd hcontra (by simp)
      · rintro ⟨s1, rfl, hne, _⟩; exact absurd hs hne
    · simp only [if_neg hs]
      cases hr : eng.render s.trim with
      | error e =>
        constructor
        · intro hcontra; exact absurd hcontra (by simp)
        · rintro ⟨s1, rfl, _, r, hrok, _⟩
          rw [hr] at hrok; exact absurd hrok (by simp)
      | ok r =>
        cases hp : fp.parse r with
        | none =>
          constructor
          · intro hcontra; exact absurd hcontra (by simp [hp])
          · rintro ⟨s1, rfl, _, r1, hrok, hparse⟩
            rw [hr] at hrok
            cases hrok
            rw [hp] at hparse; exact absurd hparse (by simp)
        | some pf =>
          cases pf with
          | finite q =>
            simp only [hp, Option.some.injEq]
            constructor
            · rintro rfl
              exact ⟨s, rfl, hs, r, hr, by rw [hp]⟩
            · rintro ⟨s1, rfl, _, r1, hrok, hparse⟩
              rw [hr] at hrok
              cases hrok
              rw [hp] at hparse
              cases hparse
              rfl
          | nan =>
            simp only [hp]
            constructor
            · intro hcontra; exact absurd hcontra (by simp)
            · rintro ⟨s1, rfl, _, r1, hrok, hparse⟩
              rw [hr] at hrok
              cases hrok
              rw [hp] at hparse; exact absurd hparse (by simp)
          | posInf =>
            simp only [hp]
            constructor
            · intro hcontra; exact absurd hcontra (by simp)
            · rintro ⟨s1, rfl, _, r1, hrok, hparse⟩
              rw [hr] at hrok
              cases hrok
              rw [hp] at hparse; exact absurd hparse (by simp)
          | negInf =>
            simp only [hp]
            constructor
            · intro hcontra; exact absurd hcontra (by simp)
            · rintro ⟨s1, rfl, _, r1, hrok, hparse⟩
              rw [hr] at hrok
              cases hrok
              rw [hp] at hparse; exact absurd hparse (by simp)

/-- C9 counterexample: an options dict that already holds an empty
screens list is returned unchanged by the migration, so the migrated
result holds neither a refresh interval nor a cycle interval and its
screens list is empty, contradicting the claim's closing sentence. -/
theorem C9_counterexample :
    migrate_options [("screens", .plist [])] = [("screens", .plist [])] ∧
    dictLookup (migrate_options [("screens", .plist [])])
      CONF_REFRESH_INTERVAL = none ∧
    dictLookup (migrate_options [("screens", .plist [])])
      CONF_SCREEN_CYCLE_INTERVAL = none ∧
    dictLookup (migrate_options [("screens", .plist [])])
      CONF_SCREENS = some (.plist []) :=
  ⟨rfl, rfl, rfl, rfl⟩

/-- C9 amended: `_migrate_options` returns any options dict that
already holds the screens key unchanged, and is idempotent on every
options dict; when the input lacks the screens key, the migrated result
holds a refresh interval, a screen cycle interval, and a non-empty
screens list (an input that already holds the screens key is passed
through as is, even when its screens list is empty or the interval keys
are absent). -/
theorem C9_migrate_options_amended (o : List (String × PyVal)) :
    (dictContains o CONF_SCREENS = true → migrate_options o = o) ∧
    migrate_options (migrate_options o) = migrate_options o ∧
    (dictContains o CONF_SCREENS = false →
      (dictLookup (migrate_options o) CONF_REFRESH_INTERVAL).isSome = true ∧
      (dictLookup (migrate_options o) CONF_SCREEN_CYCLE_INTERVAL).isSome = true ∧
      ∃ l, dictLookup (migrate_options o) CONF_SCREENS = some (.plist l) ∧
        l ≠ []) := by
  by_cases hc : dictContains o CONF_SCREENS
  · have he : migrate_options o = o := by rw [migrate_options, if_pos hc]
    refine ⟨fun _ => he, ?_, fun hfalse => absurd hc (by simp [hfalse])⟩
    rw [he, he]
  · have he : migrate_options o =
        [(CONF_REFRESH_INTERVAL,
          dictGetD o CONF_REFRESH_INTERVAL DEFAULT_REFRESH_INTERVAL),
         (CONF_SCREEN_CYCLE_INTERVAL, DEFAULT_SCREEN_CYCLE_INTERVAL),
         (CONF_SCREENS,
          .plist
            [.pdict
              [("name", .pstr "Screen 1"),
               (CONF_LAYOUT, dictGetD o CONF_LAYOUT (.pstr LAYOUT_GRID_2X2)),
               (CONF_WIDGETS,
                dictGetD o CONF_WIDGETS
                  (.plist
                    [.pdict [("type", .pstr "clock"),
                             ("slot", .pint 0)]]))]])] := by
      rw [migrate_options, if_neg hc]
    have hc2 : dictContains (migrate_options o) CONF_SCREENS = true := by
      rw [he]; rfl
    refine ⟨fun htrue => absurd htrue hc, ?_, fun _ => ?_⟩
    · rw [migrate_options, if_pos hc2]
    · rw [he]
      exact ⟨rfl, rfl, _, rfl, by simp⟩

/-- C9 witness: the empty options dict (old format) migrates to a dict
with interval keys and one screen, and the migration is idempotent on
it, through the theorem. -/
theorem C9_migrate_options_amended_witness :
    migrate_options (migrate_options []) = migrate_options [] ∧
    (dictLookup (migrate_options []) CONF_REFRESH_INTERVAL).isSome = true ∧
    ∃ l, dictLookup (migrate_options []) CONF_SCREENS = some (.plist l) ∧
      l ≠ [] := by
  have h := C9_migrate_options_amended []
  exact ⟨h.2.1, (h.2.2 rfl).1, (h.2.2 rfl).2.2⟩

/-- Every theme with a non-empty accent palette serves
`get_accent_color` from the palette at the wrapped index. -/
theorem accent_color_from_palette (t : Theme) (i : Nat)
    (h : t.accent_colors ≠ []) :
    ∃ hlt : i % t.accent_colors.length < t.accent_colors.length,
      t.get_accent_color i =
        t.accent_colors.get ⟨i % t.accent_colors.length, hlt⟩ := by
  have hlen : 0 < t.accent_colors.length := List.length_pos.mpr h
  have hlt := Nat.mod_lt i hlen
  refine ⟨hlt, ?_⟩
  rw [Theme.get_accent_color, List.getD_eq_getElem?_getD,
    List.getElem?_eq_getElem hlt]
  rfl

/-- C8: theme lookup is total (a registered name yields its theme, any
other name yields the classic default), every registered theme has a
non-empty accent palette, and accent selection indexes the palette at
the index modulo the palette length, never out of bounds. -/
theorem C8_theme_total (name : String) (i : Nat) :
    (∀ t, THEMES.lookup name = some t → get_theme name = t) ∧
    (THEMES.lookup name = none → get_theme name = THEME_CLASSIC) ∧
    (∀ p ∈ THEMES, p.2.accent_colors ≠ [] ∧
      ∃ hlt : i % p.2.accent_colors.length < p.2.accent_colors.length,
        p.2.get_accent_color i =
          p.2.accent_colors.get ⟨i % p.2.accent_colors.length, hlt⟩) := by
  refine ⟨fun t ht => ?_, fun hn => ?_, fun p hp => ?_⟩
  · rw [get_theme, ht]; rfl
  · rw [get_theme, hn]; rfl
  · have hne : p.2.accent_colors ≠ [] := by
      have hall : ∀ q ∈ THEMES, q.2.accent_colors ≠ [] := by decide
      exact hall p hp
    exact ⟨hne, accent_color_from_palette p.2 i hne⟩

/-- C8 witness: a registered name resolves to its theme, an unknown
name falls back to classic, and accent selection wraps, through the
theorem. -/
theorem C8_theme_total_witness :
    get_theme "neon" = THEME_NEON ∧
    get_theme "missing" = THEME_CLASSIC ∧
    THEME_RETRO.accent_colors ≠ [] := by
  have h1 := (C8_theme_total "neon" 0).1 THEME_NEON rfl
  have h2 := (C8_theme_total "missing" 0).2.1 rfl
  have h3 := ((C8_theme_total "retro" 3).2.2 ("retro", THEME_RETRO)
    (by simp [THEMES])).1
  exact ⟨h1, h2, h3⟩

/-- With at least one screen, `async_next_screen` moves to the
successor index modulo the screen count. -/
theorem async_next_screen_eq (st : ScreenState) (now : ℚ)
    (h1 : 0 < st.numLayouts) :
    async_next_screen st now =
      { st with
          currentScreen := (st.currentScreen + 1) % (st.numLayouts : Int),
          lastScreenChange := now } := by
  have hn : ((st.numLayouts : Int)) ≠ 0 := by
    exact_mod_cast h1.ne'
  have hpos : (0 : Int) < (st.numLayouts : Int) := by exact_mod_cast h1
  rw [async_next_screen, if_pos h1, async_set_screen,
    if_pos ⟨Int.emod_nonneg _ hn, Int.emod_lt_of_pos _ hpos⟩]

/-- With at least one screen, `async_previous_screen` moves to the
predecessor index modulo the screen count. -/
theorem async_previous_screen_eq (st : ScreenState) (now : ℚ)
    (h1 : 0 < st.numLayouts) :
    async_previous_screen st now =
      { st with
          currentScreen := (st.currentScreen - 1) % (st.numLayouts : Int),
          lastScreenChange := now } := by
  have hn : ((st.numLayouts : Int)) ≠ 0 := by
    exact_mod_cast h1.ne'
  have hpos : (0 : Int) < (st.numLayouts : Int) := by exact_mod_cast h1
  rw [async_previous_screen, if_pos h1, async_set_screen,
    if_pos ⟨Int.emod_nonneg _ hn, Int.emod_lt_of_pos _ hpos⟩]

/-- Iterating `async_next_screen` walks the screen indices additively
modulo the screen count. -/
theorem async_next_screen_iterate (st : ScreenState) (now : ℚ)
    (h1 : 0 < st.numLayouts) (h2 : 0 ≤ st.currentScreen)
    (h3 : st.currentScreen < (st.numLayouts : Int)) :
    ∀ k : Nat,
      ((fun s => async_next_screen s now)^[k] st).numLayouts =
        st.numLayouts ∧
      ((fun s => async_next_screen s now)^[k] st).currentScreen =
        (st.currentScreen + k) % (st.numLayouts : Int) := by
  intro k
  induction k with
  | zero =>
    refine ⟨rfl, ?_⟩
    simp only [Function.iterate_zero, id_eq, Nat.cast_zero, add_zero]
    exact (Int.emod_eq_of_lt h2 h3).symm
  | succ k ih =>
    rw [Function.iterate_succ_apply']
    have hn1 : 0 < ((fun s => async_next_screen s now)^[k] st).numLayouts := by
      rw [ih.1]; exact h1
    rw [async_next_screen_eq _ now hn1]
    refine ⟨ih.1, ?_⟩
    simp only [ih.1, ih.2]
    rw [Int.emod_add_emod]
    push_cast
    ring_nf

/-- C7: with a non-empty screen list and an in-range current index,
moving to the next screen and then back restores the index, iterating
the next-screen operation as many times as there are screens restores
the index, and both operations always land in `[0, screen count)`. -/
theorem C7_screen_navigation (st : ScreenState) (now now2 : ℚ)
    (h1 : 0 < st.numLayouts) (h2 : 0 ≤ st.currentScreen)
    (h3 : st.currentScreen < (st.numLayouts : Int)) :
    (async_previous_screen (async_next_screen st now) now2).currentScreen =
      st.currentScreen ∧
    ((fun s => async_next_screen s now)^[st.numLayouts] st).currentScreen =
      st.currentScreen ∧
    0 ≤ (async_next_screen st now).currentScreen ∧
    (async_next_screen st now).currentScreen < (st.numLayouts : Int) ∧
    0 ≤ (async_previous_screen st now).currentScreen ∧
    (async_previous_screen st now).currentScreen < (st.numLayouts : Int) := by
  have hn : ((st.numLayouts : Int)) ≠ 0 := by exact_mod_cast h1.ne'
  have hpos : (0 : Int) < (st.numLayouts : Int) := by exact_mod_cast h1
  have hnext := async_next_screen_eq st now h1
  have hprev := async_previous_screen_eq st now h1
  refine ⟨?_, ?_, ?_, ?_, ?_, ?_⟩
  · rw [hnext]
    have h1b : 0 < ({ st with
        currentScreen := (st.currentScreen + 1) % (st.numLayouts : Int),
        lastScreenChange := now } : ScreenState).numLayouts := h1
    rw [async_previous_screen_eq _ now2 h1b]
    show ((st.currentScreen + 1) % (st.numLayouts : Int) - 1) %
        (st.numLayouts : Int) = st.currentScreen
    have e1 : ((st.currentScreen + 1) % (st.numLayouts : Int) - 1) %
        (st.numLayouts : Int) =
        ((st.currentScreen + 1) - 1) % (st.numLayouts : Int) := by
      conv_lhs => rw [Int.sub_emod]
      conv_rhs => rw [Int.sub_emod]
      rw [Int.emod_emod_of_dvd _ dvd_rfl]
    rw [e1, add_sub_cancel_right]
    exact Int.emod_eq_of_lt h2 h3
  · rw [(async_next_screen_iterate st now h1 h2 h3 st.numLayouts).2]
    have e2 : (st.currentScreen + (st.numLayouts : Int)) %
        (st.numLayouts : Int) = st.currentScreen % (st.numLayouts : Int) := by
      have h4 := Int.add_mul_emod_self_left (a := st.currentScreen)
        (b := (st.numLayouts : Int)) (c := 1)
      rw [mul_one] at h4
      exact h4
    rw [e2]
    exact Int.emod_eq_of_lt h2 h3
  · rw [hnext]; exact Int.emod_nonneg _ hn
  · rw [hnext]; exact Int.emod_lt_of_pos _ hpos
  · rw [hprev]; exact Int.emod_nonneg _ hn
  · rw [hprev]; exact Int.emod_lt_of_pos _ hpos

/-- C7 witness: on a three-screen coordinator sitting at screen 1,
next followed by previous restores screen 1, and three next steps also
restore it, through the theorem. -/
theorem C7_screen_navigation_witness :
    (async_previous_screen
      (async_next_screen
        { numLayouts := 3, currentScreen := 1, lastScreenChange := 0 } 5)
      6).currentScreen = 1 ∧
    ((fun s => async_next_screen s 5)^[3]
      { numLayouts := 3, currentScreen := 1,
        lastScreenChange := 0 }).currentScreen = 1 := by
  have h := C7_screen_navigation
    { numLayouts := 3, currentScreen := 1, lastScreenChange := 0 } 5 6
    (by norm_num) (by norm_num) (by norm_num)
  exact ⟨h.1, h.2.1⟩

/-- Storing a widget in a slot list never changes any rectangle. -/
theorem setSlotWidget_map_rect (l : List Slot) (i : Nat) (w : Widget) :
    (setSlotWidget l i w).map Slot.rect = l.map Slot.rect := by
  induction l generalizing i with
  | nil => rfl
  | cons s rest ih =>
    cases i with
    | zero => simp [setSlotWidget]
    | succ n => simp [setSlotWidget, ih]

/-- `set_widget` never changes any slot rectangle. -/
theorem set_widget_map_rect (l : LayoutState) (i : Nat) (w : Widget) :
    (set_widget l i w).slots.map Slot.rect = l.slots.map Slot.rect := by
  rw [set_widget]
  split
  · exact setSlotWidget_map_rect l.slots i w
  · rfl

/-- The clamped panel size computed by both split constructors on the
240x240 display with the default padding and gap lies in `[43, 172]`. -/
theorem split_panel_size_bounds (fr : ℚ) :
    43 ≤ pyInt ((216 : ℚ) * clampSplitFrac fr) ∧
    pyInt ((216 : ℚ) * clampSplitFrac fr) ≤ 172 := by
  have hc1 : (2/10 : ℚ) ≤ clampSplitFrac fr := le_max_left _ _
  have hc2 : clampSplitFrac fr ≤ 8/10 := max_le (by norm_num) (min_le_left _ _)
  have hq1 : (216 : ℚ) * (2/10) ≤ (216 : ℚ) * clampSplitFrac fr :=
    mul_le_mul_of_nonneg_left hc1 (by norm_num)
  have hq2 : (216 : ℚ) * clampSplitFrac fr ≤ (216 : ℚ) * (8/10) :=
    mul_le_mul_of_nonneg_left hc2 (by norm_num)
  have h0 : (0 : ℚ) ≤ (216 : ℚ) * clampSplitFrac fr := by
    have : (0 : ℚ) ≤ (216 : ℚ) * (2/10) := by norm_num
    linarith
  rw [pyInt, if_pos h0]
  constructor
  · exact Int.le_floor.mpr (by push_cast; linarith)
  · have h173 : ⌊(216 : ℚ) * clampSplitFrac fr⌋ < 173 :=
      Int.floor_lt.mpr (by push_cast; linarith)
    omega

/-- The horizontal split layout at the default padding and gap in the
explicit two-slot normal form. -/
theorem splitHorizontalLayout_eq (fr : ℚ) :
    splitHorizontalLayout fr 8 8 =
      { padding := 8, gap := 8, width := 240, height := 240,
        slots :=
          [ { index := 0,
              rect := { x1 := 8, y1 := 8,
                        x2 := 8 + pyInt ((216 : ℚ) * clampSplitFrac fr),
                        y2 := 232 } },
            { index := 1,
              rect := { x1 := 16 + pyInt ((216 : ℚ) * clampSplitFrac fr),
                        y1 := 8, x2 := 232, y2 := 232 } } ] } := by
  rw [splitHorizontalLayout]
  norm_num [DISPLAY_WIDTH, DISPLAY_HEIGHT]
  omega

/-- The vertical split layout at the default padding and gap in the
explicit two-slot normal form. -/
theorem splitVerticalLayout_eq (fr : ℚ) :
    splitVerticalLayout fr 8 8 =
      { padding := 8, gap := 8, width := 240, height := 240,
        slots :=
          [ { index := 0,
              rect := { x1 := 8, y1 := 8, x2 := 232,
                        y2 := 8 + pyInt ((216 : ℚ) * clampSplitFrac fr) } },
            { index := 1,
              rect := { x1 := 8,
                        y1 := 16 + pyInt ((216 : ℚ) * clampSplitFrac fr),
                        x2 := 232, y2 := 232 } } ] } := by
  rw [splitVerticalLayout]
  norm_num [DISPLAY_WIDTH, DISPLAY_HEIGHT]
  omega

/-- C5: for every constructor ratio, both split layouts at the default
padding and gap produce exactly two slots whose rectangles lie inside
the 240x240 display and do not overlap, and `set_widget` never changes
any slot rectangle. -/
theorem C5_split_layouts (fr : ℚ) (i : Nat) (w : Widget) :
    (splitHorizontalLayout fr 8 8).slots.length = 2 ∧
    (∀ s ∈ (splitHorizontalLayout fr 8 8).slots, s.rect.withinDisplay) ∧
    ((splitHorizontalLayout fr 8 8).slots.Pairwise
      fun a b => a.rect.disjointFrom b.rect) ∧
    ((set_widget (splitHorizontalLayout fr 8 8) i w).slots.map Slot.rect =
      (splitHorizontalLayout fr 8 8).slots.map Slot.rect) ∧
    (splitVerticalLayout fr 8 8).slots.length = 2 ∧
    (∀ s ∈ (splitVerticalLayout fr 8 8).slots, s.rect.withinDisplay) ∧
    ((splitVerticalLayout fr 8 8).slots.Pairwise
      fun a b => a.rect.disjointFrom b.rect) ∧
    ((set_widget (splitVerticalLayout fr 8 8) i w).slots.map Slot.rect =
      (splitVerticalLayout fr 8 8).slots.map Slot.rect) := by
  obtain ⟨hA, hB⟩ := split_panel_size_bounds fr
  rw [splitHorizontalLayout_eq fr, splitVerticalLayout_eq fr]
  refine ⟨rfl, ?_, ?_, set_widget_map_rect _ i w, rfl, ?_, ?_,
    set_widget_map_rect _ i w⟩
  · intro s hs
    simp only [List.mem_cons, List.not_mem_nil, or_false] at hs
    rcases hs with rfl | rfl <;>
      refine ⟨?_, ?_, ?_, ?_, ?_, ?_⟩ <;>
      simp only [Rect.withinDisplay, DISPLAY_WIDTH, DISPLAY_HEIGHT] <;> omega
  · refine List.Pairwise.cons ?_ (List.Pairwise.cons ?_ List.Pairwise.nil)
    · intro b hb
      simp only [List.mem_cons, List.not_mem_nil, or_false] at hb
      subst hb
      left
      simp only []
      omega
    · intro b hb
      exact absurd hb (List.not_mem_nil b)
  · intro s hs
    simp only [List.mem_cons, List.not_mem_nil, or_false] at hs
    rcases hs with rfl | rfl <;>
      refine ⟨?_, ?_, ?_, ?_, ?_, ?_⟩ <;>
      simp only [Rect.withinDisplay, DISPLAY_WIDTH, DISPLAY_HEIGHT] <;> omega
  · refine List.Pairwise.cons ?_ (List.Pairwise.cons ?_ List.Pairwise.nil)
    · intro b hb
      simp only [List.mem_cons, List.not_mem_nil, or_false] at hb
      subst hb
      right; right; left
      simp only []
      omega
    · intro b hb
      exact absurd hb (List.not_mem_nil b)

/-- C1: in every run of the update cycle the device upload is attempted
at most once (no retry within the cycle); when every executed pipeline
step succeeds the cycle returns a dict with `success = True`, and when
any of rendering, PNG or JPEG encoding, or uploading fails the cycle
raises `UpdateFailed` instead of returning. -/
theorem C1_update_cycle (env : UpdateEnv) (st : CoordinatorState) :
    (asyncUpdateData env st).uploadAttempts ≤ 1 ∧
    (env.allStepsOk st →
      ∃ r, (asyncUpdateData env st).result = .ok r ∧ r.success = true) ∧
    (¬ env.allStepsOk st →
      ∃ msg, (asyncUpdateData env st).result = .error msg) := by
  by_cases hcond : (st.numLayouts ≠ 0 ∧
      0 ≤ (autoCycle env.cycle_interval st.numLayouts env.now
        { currentScreen := st.currentScreen,
          lastScreenChange := st.lastScreenChange }).currentScreen ∧
      (autoCycle env.cycle_interval st.numLayouts env.now
        { currentScreen := st.currentScreen,
          lastScreenChange := st.lastScreenChange }).currentScreen <
        (st.numLayouts : Int)) <;>
    rcases hr : env.renderResult with er | ur <;>
    rcases hp : env.pngResult with ep | png <;>
    rcases hj : env.jpegResult with ej | jpeg <;>
    rcases hu : env.uploadResult with eu | uu <;>
    simp [asyncUpdateData, UpdateEnv.allStepsOk, hcond, hr, hp, hj, hu]

/-- C1 witness: a concrete single-screen cycle in which every step
succeeds returns success, and one in which the upload fails raises,
each through the theorem. -/
theorem C1_update_cycle_witness :
    (∃ r,
      (asyncUpdateData
        { cycle_interval := 0, now := 0, renderResult := .ok (),
          pngResult := .ok [1], jpegResult := .ok [2],
          uploadResult := .ok () }
        { numLayouts := 1, currentScreen := 0,
          lastScreenChange := 0 }).result = .ok r ∧
      r.success = true) ∧
    (∃ msg,
      (asyncUpdateData
        { cycle_interval := 0, now := 0, renderResult := .ok (),
          pngResult := .ok [1], jpegResult := .ok [2],
          uploadResult := .error "device unreachable" }
        { numLayouts := 1, currentScreen := 0,
          lastScreenChange := 0 }).result = .error msg) := by
  constructor
  · exact (C1_update_cycle
      { cycle_interval := 0, now := 0, renderResult := .ok (),
        pngResult := .ok [1], jpegResult := .ok [2],
        uploadResult := .ok () }
      { numLayouts := 1, currentScreen := 0,
        lastScreenChange := 0 }).2.1
      ⟨fun _ => ⟨(), rfl⟩, ⟨[1], rfl⟩, ⟨[2], rfl⟩, ⟨(), rfl⟩⟩
  · refine (C1_update_cycle
      { cycle_interval := 0, now := 0, renderResult := .ok (),
        pngResult := .ok [1], jpegResult := .ok [2],
        uploadResult := .error "device unreachable" }
      { numLayouts := 1, currentScreen := 0,
        lastScreenChange := 0 }).2.2 ?_
    intro hok
    rcases hok.2.2.2 with ⟨u, hu⟩
    exact absurd hu (by simp)

end GeekMagic
